import Mathlib

/-!
Verification of the AI file organizer server (src/server.py) against its
natural-language specification.

The development shallow-embeds the server's core request path:
the Gemini configuration flag, the prompt builder (lines 63-93), the
response extractor (lines 95-113 of get_ai_structure), and the
POST /api/get-structure route handler (lines 128-141).

Python's json.loads is modelled by an executable fuel-based JSON parser
over the JSON fragment the server exercises: null, booleans, integer
numbers, strings (with the usual escapes), arrays and objects, with the
whole-document requirement (trailing non-whitespace is an error, as in
json.loads).  Fractional and exponent number forms are not modelled; no
behavior settled here depends on them.  Error messages are abstracted to
fixed strings per error kind (Python's messages also carry positions).
-/

/-- JSON values as produced by the modelled json.loads. -/
inductive Json where
| null : Json
| bool (b : Bool) : Json
| num (n : Int) : Json
| str (s : String) : Json
| arr (elems : List Json) : Json
| obj (fields : List (String × Json)) : Json

/-- Error kinds raised by the modelled json.loads. -/
inductive JsonError where
| expectingValue : JsonError
| extraData : JsonError
| unterminatedString : JsonError
| invalidEscape : JsonError
| expectingCommaOrRBracket : JsonError
| expectingCommaOrRBrace : JsonError
| expectingColon : JsonError
| expectingPropertyName : JsonError
| outOfFuel : JsonError
deriving DecidableEq

/-- The message carried by each parse error (str(e) in the source's
except-clause). -/
def JsonError.message : JsonError → String
| .expectingValue => "Expecting value"
| .extraData => "Extra data"
| .unterminatedString => "Unterminated string starting at"
| .invalidEscape => "Invalid escape"
| .expectingCommaOrRBracket => "Expecting delimiter after array element"
| .expectingCommaOrRBrace => "Expecting delimiter after object member"
| .expectingColon => "Expecting colon delimiter"
| .expectingPropertyName => "Expecting property name enclosed in double quotes"
| .outOfFuel => "Parser fuel exhausted"

/-- The opening brace character (written via its code point so that no
brace appears literally in the file). -/
def lbrace : Char := Char.ofNat 123

/-- The closing brace character. -/
def rbrace : Char := Char.ofNat 125

/-- JSON insignificant whitespace. -/
def isWsChar (c : Char) : Bool :=
  c = ' ' || c = '\t' || c = '\n' || c = '\r'

/-- Skip insignificant whitespace. -/
def skipWs : List Char → List Char
| [] => []
| c :: rest => if isWsChar c then skipWs rest else c :: rest

/-- Value of a hexadecimal digit. -/
def hexVal (c : Char) : Option Nat :=
  if c.isDigit then some (c.toNat - 48)
  else if 97 ≤ c.toNat ∧ c.toNat ≤ 102 then some (c.toNat - 87)
  else if 65 ≤ c.toNat ∧ c.toNat ≤ 70 then some (c.toNat - 55)
  else none

/-- Body of a JSON string after the opening quote: accumulate characters
(handling escapes) until the closing quote. -/
def parseStringAux : List Char → List Char → Except JsonError (String × List Char)
| _, [] => .error .unterminatedString
| acc, c :: rest =>
  if c = '"' then .ok (String.mk acc.reverse, rest)
  else if c = '\\' then
    match rest with
    | [] => .error .unterminatedString
    | e :: rest2 =>
      if e = '"' then parseStringAux ('"' :: acc) rest2
      else if e = '\\' then parseStringAux ('\\' :: acc) rest2
      else if e = '/' then parseStringAux ('/' :: acc) rest2
      else if e = 'n' then parseStringAux ('\n' :: acc) rest2
      else if e = 't' then parseStringAux ('\t' :: acc) rest2
      else if e = 'r' then parseStringAux ('\r' :: acc) rest2
      else if e = 'b' then parseStringAux (Char.ofNat 8 :: acc) rest2
      else if e = 'f' then parseStringAux (Char.ofNat 12 :: acc) rest2
      else if e = 'u' then
        match rest2 with
        | h1 :: h2 :: h3 :: h4 :: rest3 =>
          match hexVal h1, hexVal h2, hexVal h3, hexVal h4 with
          | some a, some b, some c2, some d =>
            parseStringAux (Char.ofNat (((a * 16 + b) * 16 + c2) * 16 + d) :: acc) rest3
          | _, _, _, _ => .error .invalidEscape
        | _ => .error .invalidEscape
      else .error .invalidEscape
  else parseStringAux (c :: acc) rest

/-- Take the maximal run of leading decimal digits. -/
def takeDigits : List Char → List Char × List Char
| [] => ([], [])
| c :: rest =>
  if c.isDigit then
    let p := takeDigits rest
    (c :: p.1, p.2)
  else ([], c :: rest)

/-- Numeric value of a digit run. -/
def digitsToNat (ds : List Char) : Nat :=
  ds.foldl (fun n c => n * 10 + (c.toNat - 48)) 0

/-- Unsigned integer part of a JSON number (a lone 0, or a nonzero
leading digit followed by any digits, as in the JSON grammar). -/
def parseNumCore : List Char → Except JsonError (Int × List Char)
| [] => .error .expectingValue
| c :: rest =>
  if c = '0' then .ok (0, rest)
  else if c.isDigit then
    let p := takeDigits rest
    .ok (Int.ofNat (digitsToNat (c :: p.1)), p.2)
  else .error .expectingValue

/-- A JSON integer number, possibly negative. -/
def parseNumber : List Char → Except JsonError (Json × List Char)
| '-' :: rest =>
  match parseNumCore rest with
  | .error e => .error e
  | .ok (n, r) => .ok (Json.num (-n), r)
| cs =>
  match parseNumCore cs with
  | .error e => .error e
  | .ok (n, r) => .ok (Json.num n, r)

/-- Parser modes: a whole value, the remaining elements of an array
being accumulated, or the remaining members of an object. -/
inductive PMode where
| value : PMode
| arrElems (acc : List Json) : PMode
| objElems (acc : List (String × Json)) : PMode

/-- The recursive JSON parser, structural in its fuel. -/
def parseF : Nat → PMode → List Char → Except JsonError (Json × List Char)
| 0, _, _ => .error .outOfFuel
| Nat.succ fuel, PMode.value, cs =>
  match skipWs cs with
  | [] => .error .expectingValue
  | c :: rest =>
    if c = '[' then
      match skipWs rest with
      | ']' :: rest2 => .ok (Json.arr [], rest2)
      | rest2 => parseF fuel (PMode.arrElems []) rest2
    else if c = lbrace then
      match skipWs rest with
      | [] => .error .expectingPropertyName
      | c2 :: rest2 =>
        if c2 = rbrace then .ok (Json.obj [], rest2)
        else parseF fuel (PMode.objElems []) (c2 :: rest2)
    else if c = '"' then
      match parseStringAux [] rest with
      | .error e => .error e
      | .ok (s, rest2) => .ok (Json.str s, rest2)
    else if c = 't' then
      match rest with
      | 'r' :: 'u' :: 'e' :: rest2 => .ok (Json.bool true, rest2)
      | _ => .error .expectingValue
    else if c = 'f' then
      match rest with
      | 'a' :: 'l' :: 's' :: 'e' :: rest2 => .ok (Json.bool false, rest2)
      | _ => .error .expectingValue
    else if c = 'n' then
      match rest with
      | 'u' :: 'l' :: 'l' :: rest2 => .ok (Json.null, rest2)
      | _ => .error .expectingValue
    else if c = '-' ∨ c.isDigit then parseNumber (c :: rest)
    else .error .expectingValue
| Nat.succ fuel, PMode.arrElems acc, cs =>
  match parseF fuel PMode.value cs with
  | .error e => .error e
  | .ok (v, rest) =>
    match skipWs rest with
    | [] => .error .expectingCommaOrRBracket
    | c :: rest2 =>
      if c = ']' then .ok (Json.arr (acc ++ [v]), rest2)
      else if c = ',' then parseF fuel (PMode.arrElems (acc ++ [v])) rest2
      else .error .expectingCommaOrRBracket
| Nat.succ fuel, PMode.objElems acc, cs =>
  match skipWs cs with
  | '"' :: rest =>
    match parseStringAux [] rest with
    | .error e => .error e
    | .ok (k, rest2) =>
      match skipWs rest2 with
      | ':' :: rest3 =>
        match parseF fuel PMode.value rest3 with
        | .error e => .error e
        | .ok (v, rest4) =>
          match skipWs rest4 with
          | [] => .error .expectingCommaOrRBrace
          | c2 :: rest5 =>
            if c2 = rbrace then .ok (Json.obj (acc ++ [(k, v)]), rest5)
            else if c2 = ',' then parseF fuel (PMode.objElems (acc ++ [(k, v)])) rest5
            else .error .expectingCommaOrRBrace
      | _ => .error .expectingColon
  | _ => .error .expectingPropertyName

/-- Model of Python json.loads: parse one JSON document and require that
only whitespace remains (otherwise Extra data, as json.loads does). -/
def pyJsonLoads (s : String) : Except JsonError Json :=
  match parseF (2 * s.length + 2) PMode.value s.data with
  | .error e => .error e
  | .ok (v, rest) =>
    match skipWs rest with
    | [] => .ok v
    | _ :: _ => .error .extraData

/-- Model of Python str.find for a single character: index of the first
occurrence, none when absent (the source's -1). -/
def findIdx : List Char → Char → Option Nat
| [], _ => none
| c :: rest, t => if c = t then some 0 else (findIdx rest t).map (· + 1)

/-- Model of Python str.rfind for a single character: index of the last
occurrence, none when absent. -/
def rfindIdx (cs : List Char) (c : Char) : Option Nat :=
  match findIdx cs.reverse c with
  | none => none
  | some k => some (cs.length - 1 - k)

/-- Model of Python slicing s[i:j] for nonnegative bounds: clamped, and
empty when j ≤ i. -/
def pySlice (cs : List Char) (i j : Nat) : List Char :=
  (cs.drop i).take (j - i)

/-- Result of the extraction step: the parsed move plan, or the error
dictionary's message (the source returns the dict with key error). -/
inductive ExtractResult where
| ok (plan : Json) : ExtractResult
| error (msg : String) : ExtractResult

/-- The json.loads call of line 106 together with the enclosing
except-clause: a parse failure becomes an error message. -/
def parseWrap (jsonStr : String) : ExtractResult :=
  match pyJsonLoads jsonStr with
  | .ok v => ExtractResult.ok v
  | .error e => ExtractResult.error e.message

/-- Lines 100-113 of src/server.py: find the first opening bracket and
the last closing bracket; if both exist, slice the span between them
inclusive and parse it; otherwise raise ValueError, which the
except-clause turns into the fixed error message. -/
def extractPlan (rawText : String) : ExtractResult :=
  match findIdx rawText.data '[', rfindIdx rawText.data ']' with
  | some i, some j => parseWrap (String.mk (pySlice rawText.data i (j + 1)))
  | _, _ => ExtractResult.error "No valid JSON list found in Gemini response."

/-- JSON string escaping used when serializing the file list (the cases
relevant to path and name strings). -/
def jsonEscapeChar (c : Char) : String :=
  if c = '"' then "\\\""
  else if c = '\\' then "\\\\"
  else if c = '\n' then "\\n"
  else if c = '\t' then "\\t"
  else if c = '\r' then "\\r"
  else String.singleton c

/-- Escape a whole string for JSON output. -/
def jsonEscape (s : String) : String :=
  String.join (s.data.map jsonEscapeChar)

/-- One entry of json.dumps(simplified_file_list, indent=2): an object
with the path and name keys, in that order. -/
def dumpsEntry (f : String × String) : String :=
  "  \x7b\n    \"path\": \"" ++ jsonEscape f.1 ++ "\",\n    \"name\": \"" ++
    jsonEscape f.2 ++ "\"\n  \x7d"

/-- json.dumps(simplified_file_list, indent=2) from line 91. -/
def dumpsSimplified (files : List (String × String)) : String :=
  match files with
  | [] => "[]"
  | _ :: _ => "[\n" ++ String.intercalate ",\n" (files.map dumpsEntry) ++ "\n]"

/-- The literal prompt text of lines 63-91, up to the serialized file
list (braces written as \x7b and \x7d, apostrophes as \x27). -/
def promptHeader : String :=
  "\n    You are a meticulous file organization robot. Your ONLY task is to generate a valid JSON object that represents a file move plan.\n    Your response MUST be ONLY the raw JSON object, starting with `[` and ending with `]`. Do not wrap it in markdown or any other text.\n\n    **YOUR PRIMARY DIRECTIVE:**\n    The user\x27s instructions are the most important rule and MUST be followed precisely. The user\x27s prompt OVERRIDES ALL default behaviors.\n\n    **CRITICAL RULES:**\n    1.  **USER INSTRUCTIONS FIRST:** Always analyze the user\x27s prompt for specific folder names or grouping logic. If the user says \"put all images and videos in a \x27Media\x27 folder\", you MUST do that.\n    2.  **DEFAULT BEHAVIOR (ONLY if no instructions):** If the user prompt is empty, organize files into common categories (e.g., Media, Documents, Archives, Others).\n    3.  **JSON FORMAT:** The \"destination\" value must be a string in the format \"FolderName/filename.ext\".\n\n    **EXAMPLE OF A PERFECT RESPONSE (Following User Instructions):**\n    USER INSTRUCTION: \"Put all pictures in a \x27Holiday Snaps\x27 folder and everything else in \x27Miscellaneous\x27.\"\n    JSON RESPONSE:\n    [\n      \x7b\n        \"source\": \"C:/Users/Test/Downloads/photo.jpg\",\n        \"destination\": \"Holiday Snaps/photo.jpg\"\n      \x7d,\n      \x7b\n        \"source\": \"C:/Users/Test/Downloads/report.pdf\",\n        \"destination\": \"Miscellaneous/report.pdf\"\n      \x7d\n    ]\n\n    ---\n    Now, based on the following file list and user instructions, generate the JSON move plan.\n    File list: "

/-- The literal prompt text between the file list and the user
instruction (line 92). -/
def promptMid : String := "\n    User Instructions: \""

/-- The literal prompt text after the user instruction (end of line 92
and line 93). -/
def promptTail : String := "\"\n    "

/-- The f-string of lines 63-93: fixed instruction text, the serialized
simplified file list, and the user prompt, which falls back to the
default instruction when it is empty (Python truthiness of a string). -/
def buildPrompt (files : List (String × String)) (user_prompt : String) : String :=
  promptHeader ++ dumpsSimplified files ++ promptMid ++
    (if user_prompt = "" then "Organize by file type." else user_prompt) ++ promptTail

/-- Exceptions that can escape the modelled code paths. -/
inductive PyExn where
| keyError (key : String) : PyExn
| typeError (msg : String) : PyExn
deriving DecidableEq

/-- Outcome of the model.generate_content call followed by .text:
either the response text, or a provider exception message. -/
inductive GenOutcome where
| ok (text : String) : GenOutcome
| fail (msg : String) : GenOutcome

/-- Line 61: the simplified file list comprehension.  Files are modelled
by association lists of string fields; a missing path or name key raises
KeyError (this line is outside the try-block of line 95). -/
def simplifiedFiles : List (List (String × String)) → Except PyExn (List (String × String))
| [] => .ok []
| f :: rest =>
  match List.lookup "path" f with
  | none => .error (PyExn.keyError "path")
  | some p =>
    match List.lookup "name" f with
    | none => .error (PyExn.keyError "name")
    | some n =>
      match simplifiedFiles rest with
      | .error e => .error e
      | .ok tl => .ok ((p, n) :: tl)

/-- Lines 54-113: the get_ai_structure function.  The Gemini client is
modelled by a configured flag (model is None when configuration failed)
and a generation oracle mapping the prompt to the call's outcome. -/
def get_ai_structure (configured : Bool) (gen : String → GenOutcome)
    (files_info : List (List (String × String))) (user_prompt : String) :
    Except PyExn Json :=
  if configured = false then
    .ok (Json.obj [("error", Json.str "Google Gemini API is not configured. Please check your API key.")])
  else
    match simplifiedFiles files_info with
    | .error exn => .error exn
    | .ok simplified =>
      match gen (buildPrompt simplified user_prompt) with
      | GenOutcome.fail msg => .ok (Json.obj [("error", Json.str msg)])
      | GenOutcome.ok text =>
        match extractPlan text with
        | ExtractResult.ok v => .ok v
        | ExtractResult.error msg => .ok (Json.obj [("error", Json.str msg)])

/-- Equality test of a JSON value against a Python string (the only
comparisons the membership test below performs). -/
def jsonEqStr (needle : String) : Json → Bool
| Json.str s => s == needle
| _ => false

/-- Substring test on character lists (Python's in operator on two
strings). -/
def containsSub (n : List Char) : List Char → Bool
| [] => n.isEmpty
| c :: t => List.isPrefixOf n (c :: t) || containsSub n t

/-- Python's in operator as used on line 139: key membership for dicts,
element membership for lists, substring for strings, and a TypeError for
non-iterable values. -/
def pyContains (needle : String) : Json → Except PyExn Bool
| Json.obj kvs => .ok (kvs.any (fun kv => kv.1 == needle))
| Json.arr l => .ok (l.any (jsonEqStr needle))
| Json.str s => .ok (containsSub needle.data s.data)
| Json.num _ => .error (PyExn.typeError "argument of type is not iterable")
| Json.bool _ => .error (PyExn.typeError "argument of type is not iterable")
| Json.null => .error (PyExn.typeError "argument of type is not iterable")

/-- Lines 128-141: the POST /api/get-structure handler.  The request
body is modelled by its two fields; a raised exception propagates as an
error value, meaning the handler did not produce a response itself. -/
def get_structure_route (configured : Bool) (gen : String → GenOutcome)
    (files_info : Option (List (List (String × String)))) (prompt : Option String) :
    Except PyExn (Json × Nat) :=
  let user_prompt := prompt.getD ""
  match files_info with
  | none => .ok (Json.obj [("error", Json.str "No file information provided.")], 400)
  | some [] => .ok (Json.obj [("error", Json.str "No file information provided.")], 400)
  | some (f :: rest) =>
    match get_ai_structure configured gen (f :: rest) user_prompt with
    | .error exn => .error exn
    | .ok proposed =>
      match pyContains "error" proposed with
      | .error exn => .error exn
      | .ok true => .ok (proposed, 500)
      | .ok false => .ok (proposed, 200)

/-- A file record that contains both keys line 61 reads. -/
def wellKeyed (f : List (String × String)) : Bool :=
  (List.lookup "path" f).isSome && (List.lookup "name" f).isSome


theorem data_append_eq (a b : String) : (a ++ b).data = a.data ++ b.data := rfl

theorem jsonError_message_ne (e : JsonError) :
    e.message ≠ "No valid JSON list found in Gemini response." := by
  cases e <;> decide

theorem findIdx_drop : ∀ (cs : List Char) (c : Char) (i : Nat),
    findIdx cs c = some i → ∃ tl, cs.drop i = c :: tl := by
  intro cs
  induction cs with
  | nil => intro c i h; simp [findIdx] at h
  | cons hd tl ih =>
    intro c i h
    simp only [findIdx] at h
    by_cases hc : hd = c
    · rw [if_pos hc] at h
      injection h with h0
      exact ⟨tl, by rw [← h0, List.drop_zero, hc]⟩
    · rw [if_neg hc] at h
      rw [Option.map_eq_some'] at h
      obtain ⟨k, hk, hik⟩ := h
      obtain ⟨tl2, htl2⟩ := ih c k hk
      exact ⟨tl2, by rw [← hik]; simpa using htl2⟩

theorem parseF_arrElems_arr : ∀ (fuel : Nat) (acc : List Json) (cs : List Char)
    (v : Json) (rest : List Char),
    parseF fuel (PMode.arrElems acc) cs = Except.ok (v, rest) → ∃ l, v = Json.arr l := by
  intro fuel
  induction fuel with
  | zero => intro acc cs v rest h; simp [parseF] at h
  | succ n ih =>
    intro acc cs v rest h
    simp only [parseF] at h
    split at h
    · exact absurd h (by simp)
    · split at h
      · exact absurd h (by simp)
      · split at h
        · obtain ⟨hv, _⟩ := Prod.mk.injEq .. ▸ (Except.ok.injEq .. ▸ h)
          exact ⟨_, hv.symm⟩
        · split at h
          · exact ih _ _ _ _ h
          · exact absurd h (by simp)

theorem skipWs_cons_not_ws (c : Char) (tl : List Char) (h : isWsChar c = false) :
    skipWs (c :: tl) = c :: tl := by
  simp [skipWs, h]

theorem parseF_value_lbrack_arr : ∀ (fuel : Nat) (tl : List Char) (v : Json) (rest : List Char),
    parseF fuel PMode.value ('[' :: tl) = Except.ok (v, rest) → ∃ l, v = Json.arr l := by
  intro fuel tl v rest h
  cases fuel with
  | zero => simp [parseF] at h
  | succ n =>
    simp only [parseF] at h
    rw [skipWs_cons_not_ws '[' tl (by decide)] at h
    simp only [reduceIte, if_pos rfl] at h
    split at h
    · obtain ⟨hv, _⟩ := Prod.mk.injEq .. ▸ (Except.ok.injEq .. ▸ h)
      exact ⟨_, hv.symm⟩
    · exact parseF_arrElems_arr _ _ _ _ _ h

theorem pyJsonLoads_lbrack_arr (s : String) (tl : List Char) (v : Json)
    (hdata : s.data = '[' :: tl) (h : pyJsonLoads s = Except.ok v) : ∃ l, v = Json.arr l := by
  simp only [pyJsonLoads, hdata] at h
  split at h
  · exact absurd h (by simp)
  · split at h
    · injection h with hv
      subst hv
      exact parseF_value_lbrack_arr _ tl _ _ (by assumption)
    · exact absurd h (by simp)

theorem extractPlan_ok_arr (s : String) (v : Json)
    (h : extractPlan s = ExtractResult.ok v) : ∃ l, v = Json.arr l := by
  rcases hf : findIdx s.data '[' with _ | i
  · simp [extractPlan, hf] at h
  · rcases hr : rfindIdx s.data ']' with _ | j
    · simp [extractPlan, hf, hr] at h
    · simp only [extractPlan, hf, hr] at h
      unfold parseWrap at h
      split at h
      · rename_i w heq
        injection h with hv
        subst hv
        obtain ⟨tl, htl⟩ := findIdx_drop s.data '[' i hf
        rcases hk : j + 1 - i with _ | m
        · have hslice : pySlice s.data i (j + 1) = [] := by
            simp [pySlice, hk]
          rw [hslice] at heq
          rw [show pyJsonLoads (String.mk ([] : List Char))
                = Except.error JsonError.expectingValue from rfl] at heq
          exact absurd heq (by simp)
        · have hslice : pySlice s.data i (j + 1) = '[' :: tl.take m := by
            simp [pySlice, hk, htl]
          rw [hslice] at heq
          exact pyJsonLoads_lbrack_arr _ (tl.take m) w rfl heq
      · exact absurd h (by simp)

theorem simplifiedFiles_ok : ∀ (l : List (List (String × String))),
    l.all wellKeyed = true → ∃ r, simplifiedFiles l = Except.ok r := by
  intro l
  induction l with
  | nil => intro _; exact ⟨[], rfl⟩
  | cons f rest ih =>
    intro h
    rw [List.all_cons, Bool.and_eq_true] at h
    obtain ⟨hf, hrest⟩ := h
    rw [wellKeyed, Bool.and_eq_true, Option.isSome_iff_exists, Option.isSome_iff_exists] at hf
    obtain ⟨⟨p, hp⟩, n, hn⟩ := hf
    obtain ⟨r, hr⟩ := ih hrest
    exact ⟨(p, n) :: r, by simp [simplifiedFiles, hp, hn, hr]⟩

theorem get_ai_structure_shape (configured : Bool) (gen : String → GenOutcome)
    (files : List (List (String × String))) (user_prompt : String)
    (h : files.all wellKeyed = true) :
    ∃ res, get_ai_structure configured gen files user_prompt = Except.ok res ∧
      ((∃ msg, res = Json.obj [("error", Json.str msg)]) ∨ (∃ l, res = Json.arr l)) := by
  cases configured with
  | false => exact ⟨_, rfl, Or.inl ⟨_, rfl⟩⟩
  | true =>
    obtain ⟨r, hr⟩ := simplifiedFiles_ok files h
    cases hg : gen (buildPrompt r user_prompt) with
    | fail msg =>
      exact ⟨_, by simp [get_ai_structure, hr, hg], Or.inl ⟨msg, rfl⟩⟩
    | ok text =>
      cases he : extractPlan text with
      | error msg =>
        exact ⟨_, by simp [get_ai_structure, hr, hg, he], Or.inl ⟨msg, rfl⟩⟩
      | ok v =>
        obtain ⟨l, rfl⟩ := extractPlan_ok_arr text v he
        exact ⟨_, by simp [get_ai_structure, hr, hg, he], Or.inr ⟨l, rfl⟩⟩

theorem isPrefixOf_self_append : ∀ (n b : List Char), List.isPrefixOf n (n ++ b) = true := by
  intro n b
  induction n with
  | nil => simp [List.isPrefixOf]
  | cons c cs ih => simp [List.isPrefixOf, ih]

theorem containsSub_self_append : ∀ (n b : List Char), containsSub n (n ++ b) = true := by
  intro n b
  cases n with
  | nil => cases b <;> simp [containsSub, List.isPrefixOf]
  | cons m ms =>
    show containsSub (m :: ms) (m :: (ms ++ b)) = true
    rw [containsSub]
    have hp : List.isPrefixOf (m :: ms) (m :: (ms ++ b)) = true :=
      isPrefixOf_self_append (m :: ms) b
    rw [hp, Bool.true_or]

theorem containsSub_append_mid : ∀ (a n b : List Char), containsSub n (a ++ (n ++ b)) = true := by
  intro a n b
  induction a with
  | nil =>
    rw [List.nil_append]
    exact containsSub_self_append n b
  | cons c a2 ih =>
    rw [List.cons_append, containsSub, ih, Bool.or_true]

theorem buildPrompt_data (files : List (String × String)) (up : String) :
    (buildPrompt files up).data
      = (promptHeader ++ dumpsSimplified files ++ promptMid).data ++
        ((if up = "" then ("Organize by file type." : String) else up).data ++ promptTail.data) := by
  simp [buildPrompt, data_append_eq, List.append_assoc]

/-- Claim C1, counterexample.  The claim states that the fixed extraction
message is "No valid JSON list found in response." and that it is
produced exactly when there is no opening bracket, no closing bracket,
or the first opening bracket is not strictly before the last closing
bracket.  On input with no brackets the code produces the message
"No valid JSON list found in Gemini response.", a different string; and
on an input whose first opening bracket (index 8) lies after its last
closing bracket (index 0) the code slices an empty string and produces
the parse error "Expecting value", not the fixed message. -/
theorem extractPlan_claimed_message_cex :
    extractPlan "plain text, no array here"
        = ExtractResult.error "No valid JSON list found in Gemini response."
    ∧ ("No valid JSON list found in Gemini response." : String)
        ≠ "No valid JSON list found in response."
    ∧ findIdx ("] noise [").data '[' = some 8
    ∧ rfindIdx ("] noise [").data ']' = some 0
    ∧ extractPlan "] noise [" = ExtractResult.error "Expecting value"
    ∧ ("Expecting value" : String) ≠ "No valid JSON list found in response." :=
  ⟨rfl, by decide, rfl, rfl, rfl, by decide⟩

/-- Claim C1, amended: extractPlan fails with the fixed message
"No valid JSON list found in Gemini response." exactly when rawText
contains no opening bracket or no closing bracket; whenever both are
present - even when the first opening bracket is not strictly before the
last closing bracket - extraction proceeds to slicing and parsing, whose
error messages are never the fixed message. -/
theorem extractPlan_fixed_message_iff (s : String) :
    extractPlan s = ExtractResult.error "No valid JSON list found in Gemini response."
      ↔ (findIdx s.data '[' = none ∨ rfindIdx s.data ']' = none) := by
  rcases hf : findIdx s.data '[' with _ | i
  · simp [extractPlan, hf]
  · rcases hr : rfindIdx s.data ']' with _ | j
    · simp [extractPlan, hf, hr]
    · simp only [extractPlan, hf, hr]
      constructor
      · intro h
        unfold parseWrap at h
        split at h
        · exact absurd h (by simp)
        · rename_i e heq
          injection h with hm
          exact absurd hm (jsonError_message_ne e)
      · rintro (h | h) <;> exact absurd h (by simp)

/-- Claim C3: whenever both brackets are present, extraction parses
exactly the slice from the first opening bracket through the last
closing bracket; in particular, on "noise [1] more [2,3] end" the parsed
candidate is "[1] more [2,3]" (indices 6 through 19), whose parse fails
with Extra data, a parse error rather than a successful plan. -/
theorem extractPlan_greedy_span :
    (∀ (s : String) (i j : Nat), findIdx s.data '[' = some i → rfindIdx s.data ']' = some j →
      extractPlan s = parseWrap (String.mk (pySlice s.data i (j + 1))))
    ∧ pySlice ("noise [1] more [2,3] end").data 6 20 = ("[1] more [2,3]").data
    ∧ findIdx ("noise [1] more [2,3] end").data '[' = some 6
    ∧ rfindIdx ("noise [1] more [2,3] end").data ']' = some 19
    ∧ extractPlan "noise [1] more [2,3] end" = ExtractResult.error "Extra data" := by
  refine ⟨?_, rfl, rfl, rfl, rfl⟩
  intro s i j hf hr
  simp [extractPlan, hf, hr]

/-- Witness for claim C3's theorem at a concrete input. -/
theorem extractPlan_greedy_span_witness :
    extractPlan "pre [7] mid ] post"
      = parseWrap (String.mk (pySlice ("pre [7] mid ] post").data 4 (12 + 1))) :=
  extractPlan_greedy_span.1 "pre [7] mid ] post" 4 12 (by rfl) (by rfl)

/-- Claim C4: when the sliced span parses as JSON, extractPlan returns
the parsed value as-is, with no schema validation of any kind; an empty
array and an array of numbers are returned unchanged. -/
theorem extractPlan_no_validation :
    (∀ (s : String) (i j : Nat) (v : Json),
      findIdx s.data '[' = some i → rfindIdx s.data ']' = some j →
      pyJsonLoads (String.mk (pySlice s.data i (j + 1))) = Except.ok v →
      extractPlan s = ExtractResult.ok v)
    ∧ extractPlan "x[]y" = ExtractResult.ok (Json.arr [])
    ∧ extractPlan "ans: [1, 2, 3]"
        = ExtractResult.ok (Json.arr [Json.num 1, Json.num 2, Json.num 3]) := by
  refine ⟨?_, rfl, rfl⟩
  intro s i j v hf hr hp
  simp [extractPlan, hf, hr, parseWrap, hp]

/-- Witness for claim C4's theorem at a concrete input. -/
theorem extractPlan_no_validation_witness :
    extractPlan "see [0] ok" = ExtractResult.ok (Json.arr [Json.num 0]) :=
  extractPlan_no_validation.1 "see [0] ok" 4 6 (Json.arr [Json.num 0])
    (by rfl) (by rfl) (by rfl)

/-- Claim C5: a single valid JSON array surrounded by prose with no
other brackets is extracted and parsed to the one-entry plan. -/
theorem extractPlan_embedded_array :
    extractPlan "Here is the plan:\n[\x7b\"source\":\"a\",\"destination\":\"Docs/a\"\x7d]\nThanks"
      = ExtractResult.ok (Json.arr
          [Json.obj [("source", Json.str "a"), ("destination", Json.str "Docs/a")]]) := rfl

/-- Claim C6: when files_info is missing or empty the handler answers
400 with exactly the fixed error body, for every configuration state and
every generation oracle (so generation is never invoked and no prompt is
built - the response does not depend on either). -/
theorem route_empty_files_400 (configured : Bool) (gen : String → GenOutcome)
    (files_info : Option (List (List (String × String)))) (prompt : Option String)
    (h : files_info = none ∨ files_info = some []) :
    get_structure_route configured gen files_info prompt
      = Except.ok (Json.obj [("error", Json.str "No file information provided.")], 400) := by
  rcases h with rfl | rfl <;> rfl

/-- Witness for claim C6's theorem at a concrete input. -/
theorem route_empty_files_400_witness :
    get_structure_route true (fun _ => GenOutcome.fail "net down") (some []) (some "x")
      = Except.ok (Json.obj [("error", Json.str "No file information provided.")], 400) :=
  route_empty_files_400 true (fun _ => GenOutcome.fail "net down") (some []) (some "x")
    (Or.inr rfl)

/-- Claim C7: in the disabled state (model is None), every request with
non-empty files_info gets a 500 configuration-error JSON body, the same
for every generation oracle (no network call is attempted), and the
handler returns normally - no exception escapes - so the process keeps
serving requests. -/
theorem route_unconfigured_500 (gen : String → GenOutcome) (f : List (String × String))
    (rest : List (List (String × String))) (prompt : Option String) :
    get_structure_route false gen (some (f :: rest)) prompt
      = Except.ok (Json.obj [("error",
          Json.str "Google Gemini API is not configured. Please check your API key.")], 500) := rfl

/-- Claim C2, counterexample.  The claim states that every failure -
including a files_info element lacking a path or name key - is caught at
the handler boundary and turned into a JSON error body.  But line 61 of
src/server.py reads f["path"] outside the try-block, so a non-empty
files_info whose element lacks "path" raises a KeyError that escapes the
handler instead of producing a JSON body. -/
theorem route_uncaught_keyError_cex :
    get_structure_route true (fun _ => GenOutcome.ok "[]") (some [[("name", "a.txt")]]) none
      = Except.error (PyExn.keyError "path") := rfl

/-- Claim C2, amended: for requests whose files_info elements all carry
both the path and name keys, every failure (configuration, provider,
extraction, parse) is converted to a JSON error body with a non-2xx
status and the handler always returns normally with a JSON object -
either an error object or the plan array; but an element lacking "path"
or "name" raises a KeyError that escapes the handler uncaught. -/
theorem route_json_boundary (configured : Bool) (gen : String → GenOutcome)
    (files_info : Option (List (List (String × String)))) (prompt : Option String)
    (hwf : ∀ l, files_info = some l → l.all wellKeyed = true) :
    ∃ body status,
      get_structure_route configured gen files_info prompt = Except.ok (body, status) ∧
      ((∃ msg, body = Json.obj [("error", Json.str msg)] ∧ status ≠ 200) ∨
       (∃ l, body = Json.arr l ∧ (status = 200 ∨ status = 500))) := by
  rcases files_info with _ | l
  · exact ⟨_, 400, rfl, Or.inl ⟨_, rfl, by decide⟩⟩
  · rcases l with _ | ⟨f, rest⟩
    · exact ⟨_, 400, rfl, Or.inl ⟨_, rfl, by decide⟩⟩
    · obtain ⟨res, hres, hshape⟩ :=
        get_ai_structure_shape configured gen (f :: rest) (prompt.getD "") (hwf _ rfl)
      rcases hshape with ⟨msg, rfl⟩ | ⟨l, rfl⟩
      · refine ⟨_, 500, ?_, Or.inl ⟨msg, rfl, by decide⟩⟩
        simp [get_structure_route, hres, pyContains]
      · rcases hb : l.any (jsonEqStr "error") with _ | _
        · refine ⟨_, 200, ?_, Or.inr ⟨l, rfl, Or.inl rfl⟩⟩
          simp [get_structure_route, hres, pyContains, hb]
        · refine ⟨_, 500, ?_, Or.inr ⟨l, rfl, Or.inr rfl⟩⟩
          simp [get_structure_route, hres, pyContains, hb]

/-- Witness for claim C2's theorem at a concrete input. -/
theorem route_json_boundary_witness :
    ∃ body status,
      get_structure_route true (fun _ => GenOutcome.ok "[]")
          (some [[("path", "/tmp/a.txt"), ("name", "a.txt")]]) none
        = Except.ok (body, status) ∧
      ((∃ msg, body = Json.obj [("error", Json.str msg)] ∧ status ≠ 200) ∨
       (∃ l, body = Json.arr l ∧ (status = 200 ∨ status = 500))) :=
  route_json_boundary true (fun _ => GenOutcome.ok "[]")
    (some [[("path", "/tmp/a.txt"), ("name", "a.txt")]]) none
    (by intro l hl; injection hl with h2; rw [← h2]; decide)

/-- Claim C8: with an empty user prompt the built prompt contains the
literal fallback instruction "Organize by file type."; with a non-empty
user prompt, that string occupies the instruction slot instead of the
fallback, and hence appears in the prompt. -/
theorem buildPrompt_default_instruction (files : List (String × String)) :
    containsSub ("Organize by file type.").data (buildPrompt files "").data = true
    ∧ (∀ up : String, up ≠ "" →
        buildPrompt files up
          = promptHeader ++ dumpsSimplified files ++ promptMid ++ up ++ promptTail
        ∧ containsSub up.data (buildPrompt files up).data = true) := by
  constructor
  · have h := buildPrompt_data files ""
    rw [if_pos rfl] at h
    rw [h]
    exact containsSub_append_mid _ _ _
  · intro up hup
    constructor
    · simp [buildPrompt, hup]
    · have h := buildPrompt_data files up
      rw [if_neg hup] at h
      rw [h]
      exact containsSub_append_mid _ _ _

/-- Witness for claim C8's theorem at a concrete input. -/
theorem buildPrompt_default_instruction_witness :
    containsSub ("Organize by file type.").data (buildPrompt [] "").data = true
    ∧ containsSub ("Sort by year").data (buildPrompt [] "Sort by year").data = true :=
  ⟨(buildPrompt_default_instruction []).1,
   ((buildPrompt_default_instruction []).2 "Sort by year" (by decide)).2⟩

/-- Claim C9: the handler decides success by testing membership of the
string "error" in the extraction result, so a successfully extracted
plan containing "error" as an element is sent with status 500 (with the
plan itself as the body), while a plan without that element is always
sent with status 200. -/
theorem route_error_membership :
    (get_structure_route true (fun _ => GenOutcome.ok "[\"error\"]")
        (some [[("path", "/tmp/a.txt"), ("name", "a.txt")]]) (some "x")
      = Except.ok (Json.arr [Json.str "error"], 500))
    ∧ (∀ (text : String) (f0 : List (String × String))
        (rest : List (List (String × String))) (prompt : Option String) (l : List Json),
        (f0 :: rest).all wellKeyed = true →
        extractPlan text = ExtractResult.ok (Json.arr l) →
        l.any (jsonEqStr "error") = false →
        get_structure_route true (fun _ => GenOutcome.ok text) (some (f0 :: rest)) prompt
          = Except.ok (Json.arr l, 200)) := by
  constructor
  · rfl
  · intro text f0 rest prompt l hwf hex hnone
    obtain ⟨r, hr⟩ := simplifiedFiles_ok (f0 :: rest) hwf
    simp [get_structure_route, get_ai_structure, hr, hex, pyContains, hnone]

/-- Witness for claim C9's theorem at a concrete input. -/
theorem route_error_membership_witness :
    get_structure_route true (fun _ => GenOutcome.ok "[1]")
        (some [[("path", "/tmp/b.txt"), ("name", "b.txt")]]) none
      = Except.ok (Json.arr [Json.num 1], 200) :=
  route_error_membership.2 "[1]" [("path", "/tmp/b.txt"), ("name", "b.txt")] [] none
    [Json.num 1] (by decide) (by rfl) (by rfl)

/-- Claim C10: whenever extraction succeeds, the returned value is a
JSON array: the sliced candidate necessarily begins with an opening
bracket, so any successfully parsed value has a top-level array. -/
theorem extractPlan_success_is_array (s : String) (v : Json)
    (h : extractPlan s = ExtractResult.ok v) : ∃ l, v = Json.arr l :=
  extractPlan_ok_arr s v h

/-- Witness for claim C10's theorem at a concrete input. -/
theorem extractPlan_success_is_array_witness :
    extractPlan "[null]" = ExtractResult.ok (Json.arr [Json.null])
    ∧ ∃ l, (Json.arr [Json.null] : Json) = Json.arr l :=
  ⟨rfl, extractPlan_success_is_array "[null]" (Json.arr [Json.null]) rfl⟩
